import Mathlib

/-!
Verification development for the claude-code-hooks repository.

This file gives a shallow embedding, in Lean 4, of the decision logic of the
hook scripts that the claims concern:

* src/hooks/large-file-guard.py — threshold resolution, skip check and the
  two-stage admission gate;
* src/hooks/hook_utils.py — estimate_tokens, count_lines and
  get_large_file_threshold;
* src/hooks/large-file-awareness.py — analyze_files (the project scanner);
* src/hooks/prompt-flag-appender.py — resolve_trigger and
  split_prompt_and_triggers;
* src/hooks/serena_awareness.py — the session-marker tracker.

Filesystem and environment effects are embedded by passing the result of
each I/O primitive explicitly (an Option value is none exactly when the
Python call raises the exception that the source catches at that point).
Machine integers are modelled as Int / Nat; Python floor division // on
nonnegative values is Nat division.
-/

namespace Hooks

/-- File classification produced by hook_utils.classify_file: one of
"binary", "code", "data", "unknown". -/
inductive FileClass where
  | binary
  | code
  | data
  | unknown
deriving DecidableEq, Repr

/-- hook_utils.estimate_tokens: returns 0 for empty content, otherwise
int(len(content) / 3.5).  For every string length representable in memory the
Python float computation int(n / 3.5) equals the exact rational floor
⌊n / 3.5⌋ = 2*n / 7 (a divergence would need n on the order of 2^52, far
beyond any constructible Python string), so it is embedded as Nat division
2 * length / 7. -/
def estimate_tokens (content : String) : Nat :=
  if content.data.isEmpty then 0 else 2 * content.length / 7

/-- hook_utils.count_lines: streams the file and counts its lines, returning
0 on OSError.  The embedding receives the I/O outcome: some n when the file
opens and has n lines, none when opening or reading raises OSError. -/
def count_lines (openRes : Option Nat) : Nat :=
  match openRes with
  | some n => n
  | none => 0

/-- large-file-guard.get_file_size_bytes: Path(file_path).stat().st_size,
or 0 on OSError.  statRes is some n when stat succeeds with size n bytes,
none when it raises OSError. -/
def get_file_size_bytes (statRes : Option Nat) : Nat :=
  match statRes with
  | some n => n
  | none => 0

/-- Constant INSTANT_ALLOW_BYTES = 5 * 1024 from large-file-guard.py. -/
def INSTANT_ALLOW_BYTES : Nat := 5 * 1024

/-- Constant INSTANT_BLOCK_BYTES = 100 * 1024 from large-file-guard.py. -/
def INSTANT_BLOCK_BYTES : Nat := 100 * 1024

/-- Constant DEFAULT_THRESHOLD = 500 from large-file-guard.py. -/
def DEFAULT_THRESHOLD : Int := 500

/-- large-file-guard.check_file_size: two-stage size decision.  Returns
(exceeds_threshold, line_count, token_estimate).  Inputs embed the I/O
outcomes: statRes for the stat call, openRes for count_lines' open, and
readRes for the full-content read used for the token estimate (none when
that open/read raises OSError).  The threshold is a Python int, so Int.
int(size_bytes / 3.5) is embedded as 2 * size / 7 (see estimate_tokens). -/
def check_file_size (statRes : Option Nat) (openRes : Option Nat)
    (readRes : Option String) (threshold : Int) : Bool × Nat × Nat :=
  let sizeBytes := get_file_size_bytes statRes
  if sizeBytes < INSTANT_ALLOW_BYTES then
    (false, 0, 0)
  else if sizeBytes > INSTANT_BLOCK_BYTES then
    let estimatedLines := sizeBytes / 80
    let tokens := 2 * sizeBytes / 7
    (true, estimatedLines, tokens)
  else
    let lineCount := count_lines openRes
    if (lineCount : Int) > threshold then
      let tokens :=
        match readRes with
        | some content => estimate_tokens content
        | none => 2 * sizeBytes / 7
      (true, lineCount, tokens)
    else
      (false, lineCount, 0)

/-- The Read tool_input as far as should_skip_check inspects it: the values
of the "offset" and "limit" keys.  none embeds both an absent key and an
explicit JSON null (Python's dict.get yields None in both cases); some v
embeds an explicit numeric value. -/
structure ToolInput where
  offset : Option Int
  limit : Option Int
deriving DecidableEq, Repr

/-- large-file-guard.should_skip_check.  allowLargeRead embeds
os.environ.get("ALLOW_LARGE_READ") == "1"; cls embeds
classify_file(file_path); fileIsFile embeds Path(file_path).is_file(). -/
def should_skip_check (allowLargeRead : Bool) (cls : FileClass)
    (toolInput : ToolInput) (fileIsFile : Bool) : Bool :=
  if allowLargeRead then true
  else if cls = FileClass.binary then true
  else if toolInput.offset.isSome then true
  else if toolInput.limit.isSome then true
  else if !fileIsFile then true
  else false

/-- The admission-gate verdict of large-file-guard.main for a Read request
that reaches the skip check: exit 0 (allow, gate_blocks = false) when
should_skip_check is true or check_file_size reports no excess, exit 2
(block, gate_blocks = true) when check_file_size reports excess. -/
def gate_blocks (allowLargeRead : Bool) (cls : FileClass)
    (toolInput : ToolInput) (fileIsFile : Bool)
    (statRes : Option Nat) (openRes : Option Nat) (readRes : Option String)
    (threshold : Int) : Bool :=
  if should_skip_check allowLargeRead cls toolInput fileIsFile then false
  else (check_file_size statRes openRes readRes threshold).1

/-- Python truthiness of a string: nonempty. -/
def pyTruthy (s : String) : Bool :=
  !s.isEmpty

/-- Value of a nonempty all-decimal-digit character list, none if any
character is not a decimal digit. -/
def decDigitsVal (l : List Char) : Option Nat :=
  l.foldl
    (fun acc c =>
      match acc with
      | some n => if c.isDigit then some (n * 10 + (c.toNat - 48)) else none
      | none => none)
    (some 0)

/-- Leading and trailing whitespace stripped, as Python str.strip() /
int()'s implicit stripping. -/
def pyStrip (l : List Char) : List Char :=
  ((l.dropWhile Char.isWhitespace).reverse.dropWhile Char.isWhitespace).reverse

/-- Python int(s) on a decimal string: optional surrounding whitespace,
optional single sign, then at least one decimal digit; none when Python
raises ValueError.  (Underscore digit grouping, a Python extra the repo
never relies on, is outside the model.) -/
def pyParseInt (s : String) : Option Int :=
  match pyStrip s.data with
  | [] => none
  | c :: rest =>
    if c = '-' then
      match rest with
      | [] => none
      | _ => (decDigitsVal rest).map (fun n => -(n : Int))
    else if c = '+' then
      match rest with
      | [] => none
      | _ => (decDigitsVal rest).map (fun n => (n : Int))
    else
      (decDigitsVal (c :: rest)).map (fun n => (n : Int))

/-- large-file-guard.get_threshold.  envThreshold embeds
os.environ.get("LARGE_FILE_THRESHOLD") (none = unset); home embeds
os.environ.get("HOME"); cfgIsFile embeds config_file.is_file(); cfgRead
embeds config_file.read_text() (none = OSError).  A ValueError from int()
is caught at each level and resolution falls through. -/
def get_threshold (envThreshold : Option String) (home : Option String)
    (cfgIsFile : Bool) (cfgRead : Option String) : Int :=
  let fromEnv : Option Int :=
    match envThreshold with
    | some s => if pyTruthy s then pyParseInt s else none
    | none => none
  match fromEnv with
  | some n => n
  | none =>
    let fromCfg : Option Int :=
      match home with
      | some h =>
        if pyTruthy h && cfgIsFile then cfgRead.bind pyParseInt else none
      | none => none
    match fromCfg with
    | some n => n
    | none => DEFAULT_THRESHOLD

/-- A JSON value as relevant to settings.json's largeFileThreshold key.
(Non-integral JSON numbers are floats in Python and outside the model; the
repository never writes one there.) -/
inductive JsonVal where
  | jInt (n : Int)
  | jBool (b : Bool)
  | jStr (s : String)
  | jNull
  | jArr
  | jObj
deriving DecidableEq, Repr

/-- Outcome of Python's int(x) coercion on a JSON value. -/
inductive PyIntResult where
  | ok (n : Int)
  | valueError
  | typeError
deriving DecidableEq, Repr

/-- Python int(x) applied to a decoded JSON value: ints pass through, bools
coerce to 0/1, strings parse or raise ValueError, and null / arrays /
objects raise TypeError. -/
def pyIntOfJson : JsonVal → PyIntResult
  | JsonVal.jInt n => PyIntResult.ok n
  | JsonVal.jBool b => PyIntResult.ok (if b then 1 else 0)
  | JsonVal.jStr s =>
    match pyParseInt s with
    | some n => PyIntResult.ok n
    | none => PyIntResult.valueError
  | JsonVal.jNull => PyIntResult.typeError
  | JsonVal.jArr => PyIntResult.typeError
  | JsonVal.jObj => PyIntResult.typeError

/-- The second and third stages of hook_utils.get_large_file_threshold,
reached whenever the settings.json stage falls through: the
LARGE_FILE_THRESHOLD environment variable when present, truthy and
parseable, else the hard-coded default 500. -/
def glft_env_fallback (envThreshold : Option String) : Int :=
  let fromEnv : Option Int :=
    match envThreshold with
    | some s => if pyTruthy s then pyParseInt s else none
    | none => none
  match fromEnv with
  | some n => n
  | none => 500

/-- The decoded top-level settings.json document as the settings stage of
get_large_file_threshold inspects it.  json.load can return any JSON
value, not only an object: dObj carries the lookup of the
largeFileThreshold key (none when the key is absent); dArr carries whether
the string "largeFileThreshold" occurs among the array elements, which is
what the Python membership test checks on a list; dStr carries whether the
document string contains "largeFileThreshold" as a substring, which is
what the membership test checks on a str; numbers, booleans and null are
not iterable, so the membership test itself raises on them. -/
inductive JsonDoc where
  | dObj (key : Option JsonVal)
  | dArr (hasKeyElem : Bool)
  | dStr (hasKeySub : Bool)
  | dNum
  | dBool
  | dNull
deriving DecidableEq, Repr

/-- hook_utils.get_large_file_threshold.  home embeds
os.environ.get("HOME"); settingsIsFile embeds settings_path.is_file();
settingsDoc embeds the open-and-json.load outcome: none when open or
json.load raises (OSError / JSONDecodeError, both caught, JSONDecodeError
being a ValueError subclass), some d when a document d was decoded.  The
code then runs the membership test "largeFileThreshold" in settings, which
raises an uncaught TypeError when the document is null, a number or a
boolean (argument not iterable); when the test succeeds on an array or
string document, the subscript settings["largeFileThreshold"] raises an
uncaught TypeError (string index into a list or str); on an object, the
value v of a present key is coerced with int(v), whose ValueError is
caught (fall-through) but whose TypeError (null, array or object value)
is not.  Every uncaught TypeError is embedded as Except.error, since the
except clause lists only OSError, ValueError and json.JSONDecodeError;
every caught failure falls through to glft_env_fallback. -/
def get_large_file_threshold (home : Option String) (settingsIsFile : Bool)
    (settingsDoc : Option JsonDoc) (envThreshold : Option String) :
    Except Unit Int :=
  match home with
  | some h =>
    if pyTruthy h && settingsIsFile then
      match settingsDoc with
      | some (JsonDoc.dObj (some v)) =>
        match pyIntOfJson v with
        | PyIntResult.ok n => Except.ok n
        | PyIntResult.valueError => Except.ok (glft_env_fallback envThreshold)
        | PyIntResult.typeError => Except.error ()
      | some (JsonDoc.dObj none) => Except.ok (glft_env_fallback envThreshold)
      | some (JsonDoc.dArr true) => Except.error ()
      | some (JsonDoc.dArr false) => Except.ok (glft_env_fallback envThreshold)
      | some (JsonDoc.dStr true) => Except.error ()
      | some (JsonDoc.dStr false) => Except.ok (glft_env_fallback envThreshold)
      | some JsonDoc.dNum => Except.error ()
      | some JsonDoc.dBool => Except.error ()
      | some JsonDoc.dNull => Except.error ()
      | none => Except.ok (glft_env_fallback envThreshold)
    else Except.ok (glft_env_fallback envThreshold)
  | none => Except.ok (glft_env_fallback envThreshold)

/-- One enumerated project file as large-file-awareness.analyze_files
observes it: path, the os.path.exists result, the classify_file(path)
classification (a pure function of the path's extension), the count_lines
open outcome, and the full-content read outcome (none when open/read
raises, triggering the per-line fallback estimate). -/
structure ScanFile where
  path : String
  fsExists : Bool
  cls : FileClass
  openRes : Option Nat
  readRes : Option String
deriving DecidableEq, Repr

/-- large-file-awareness.recommend_tool. -/
def recommend_tool (fileType : FileClass) : String :=
  if fileType = FileClass.code then "Serena"
  else if fileType = FileClass.data then "Grep"
  else "Read offset/limit"

/-- The per-file metadata dict appended by analyze_files. -/
structure FileReport where
  path : String
  lines : Nat
  tokens : Nat
  cls : FileClass
  tool : String
deriving DecidableEq, Repr

/-- The body of analyze_files' loop for one file: none when the file is
skipped (missing, binary, or line count below threshold), some report
otherwise. -/
def analyze_one (threshold : Int) (f : ScanFile) : Option FileReport :=
  if !f.fsExists then none
  else if f.cls = FileClass.binary then none
  else
    let lines := count_lines f.openRes
    if (lines : Int) < threshold then none
    else
      let tokens :=
        match f.readRes with
        | some content => estimate_tokens content
        | none => lines * 8
      some { path := f.path, lines := lines, tokens := tokens,
             cls := f.cls, tool := recommend_tool f.cls }

/-- large-file-awareness.analyze_files: filter and report each qualifying
file, then large_files.sort(key=lines, reverse=True) — Python's stable
descending sort, embedded as insertion sort under the
relation (later lines ≤ earlier lines). -/
def analyze_files (threshold : Int) (files : List ScanFile) :
    List FileReport :=
  List.insertionSort (fun a b => b.lines ≤ a.lines)
    (files.filterMap (analyze_one threshold))

/-- The trigger configuration as resolve_trigger consults it: the key set
of the merged TOML dict, and the alias map built by build_alias_map
(alias → canonical name); dict lookup is first-match lookup since
build_alias_map registers each alias once per insertion order with
last-write-wins already applied. -/
structure TriggerConfig where
  keys : List String
  aliasMap : List (String × String)
deriving Repr

/-- prompt-flag-appender.resolve_trigger: direct match against the config
keys first, then alias lookup, else None. -/
def resolve_trigger (trigger : String) (cfg : TriggerConfig) :
    Option String :=
  if trigger ∈ cfg.keys then some trigger
  else
    match cfg.aliasMap.lookup trigger with
    | some canonical => some canonical
    | none => none

/-- Python str.rstrip(): trailing whitespace removed. -/
def pyRstrip (l : List Char) : List Char :=
  (l.reverse.dropWhile Char.isWhitespace).reverse

/-- The backward token scan of split_prompt_and_triggers, operating on the
reversed remaining text.  Each step trims whitespace, takes one token (in
reverse), and either consumes it as a trigger-shaped token (appending its
canonical name to acc when it resolves) or stops, returning the reversed
base text and the triggers in right-to-left discovery order.  Each step
consumes at least one character, so fuel = length of the text suffices. -/
def scanTriggers (cfg : TriggerConfig) :
    Nat → List Char → List String → List Char × List String
  | 0, rev, acc => (rev, acc)
  | Nat.succ fuel, rev, acc =>
    let rev1 := rev.dropWhile Char.isWhitespace
    let tokRev := rev1.takeWhile (fun c => !c.isWhitespace)
    let rest := rev1.dropWhile (fun c => !c.isWhitespace)
    match tokRev with
    | [] => ([], acc)
    | _ =>
      let tok := tokRev.reverse
      if tok.head? = some '+' && decide (tok.length > 1) then
        let acc1 :=
          match resolve_trigger (String.mk (tok.drop 1)) cfg with
          | some canonical => acc ++ [canonical]
          | none => acc
        scanTriggers cfg fuel rest acc1
      else
        (rev1, acc)

/-- The deduplication loop at the end of split_prompt_and_triggers: keep
the first occurrence, tracking a seen set. -/
def dedupKeepFirst (seen : List String) :
    List String → List String
  | [] => []
  | t :: rest =>
    if t ∈ seen then dedupKeepFirst seen rest
    else t :: dedupKeepFirst (t :: seen) rest

/-- prompt-flag-appender.split_prompt_and_triggers: rstrip the prompt, scan
trailing trigger-shaped tokens from the right, rstrip the kept prefix, then
reverse the collected triggers into left-to-right order and deduplicate
keeping first occurrences. -/
def split_prompt_and_triggers (prompt : String) (cfg : TriggerConfig) :
    String × List String :=
  let text := pyRstrip prompt.data
  let scanned := scanTriggers cfg (text.length + 1) text.reverse []
  let basePrompt := String.mk (pyRstrip scanned.1.reverse)
  (basePrompt, dedupKeepFirst [] scanned.2.reverse)

/-- Constant SESSION_MARKER_MAX_AGE_DAYS = 7 from serena_awareness.py. -/
def SESSION_MARKER_MAX_AGE_DAYS : Nat := 7

/-- The session-marker directory state: one entry per marker file
<session id>.seen, carrying the marker's stem (the session id) and its
st_mtime in whole seconds. -/
abbrev MarkerState := List (String × Nat)

/-- serena_awareness.cleanup_old_session_markers: for every *.seen marker
whose stem differs from the current session id, unlink it when its mtime is
strictly below now - 7 days; the current session's marker is skipped before
the age test.  now embeds time.time(). -/
def cleanup_old_session_markers (currentSessionId : String) (now : Nat)
    (markers : MarkerState) : MarkerState :=
  let cutoff := now - SESSION_MARKER_MAX_AGE_DAYS * 86400
  markers.filter
    (fun m => m.1 = currentSessionId || !(decide (m.2 < cutoff)))

/-- marker.touch(): creates the marker with mtime now, or updates an
existing marker's mtime to now. -/
def touchMarker (sessionId : String) (now : Nat) (markers : MarkerState) :
    MarkerState :=
  if markers.any (fun m => m.1 = sessionId) then
    markers.map (fun m => if m.1 = sessionId then (sessionId, now) else m)
  else
    markers ++ [(sessionId, now)]

/-- serena_awareness.is_first_prompt_in_session: remember whether the
marker existed, touch it, run the cleanup sweep, and return (is_first, new
directory state). -/
def is_first_prompt_in_session (sessionId : String) (now : Nat)
    (markers : MarkerState) : Bool × MarkerState :=
  let isFirst := !(markers.any (fun m => m.1 = sessionId))
  let touched := touchMarker sessionId now markers
  let cleaned := cleanup_old_session_markers sessionId now touched
  (isFirst, cleaned)

/-! Theorems settling the claims. -/

/-- C4: in the admission gate skip check, an explicit offset of 0 (or an
explicit limit of 0) forces a skip, while a request with both offset and
limit absent or null is skipped exactly when another skip reason applies
(bypass env var, binary classification, or missing file) — never because
of the offset/limit. -/
theorem claim_C4 :
    (∀ (a : Bool) (cls : FileClass) (lim : Option Int) (fex : Bool),
      should_skip_check a cls ⟨some 0, lim⟩ fex = true)
    ∧ (∀ (a : Bool) (cls : FileClass) (off : Option Int) (fex : Bool),
      should_skip_check a cls ⟨off, some 0⟩ fex = true)
    ∧ (∀ (a : Bool) (cls : FileClass) (fex : Bool),
      should_skip_check a cls ⟨none, none⟩ fex =
        (a || decide (cls = FileClass.binary) || !fex)) := by
  refine ⟨?_, ?_, ?_⟩
  · intro a cls lim fex
    cases a <;> cases cls <;> cases fex <;> rfl
  · intro a cls off fex
    cases a <;> cases cls <;> cases off <;> cases fex <;> rfl
  · intro a cls fex
    cases a <;> cases cls <;> cases fex <;> rfl

/-- C6: on the prompt "Fix this code +ultrathink +absolute +unknown" with
ultrathink and absolute configured and unknown unmapped,
split_prompt_and_triggers returns base prompt "Fix this code" and triggers
[ultrathink, absolute] in left-to-right order, with the unmapped +unknown
dropped from both the trigger list and the base prompt. -/
theorem claim_C6 :
    split_prompt_and_triggers "Fix this code +ultrathink +absolute +unknown"
      ⟨["ultrathink", "absolute"], []⟩ =
    ("Fix this code", ["ultrathink", "absolute"]) := by
  decide

/-- C1 counterexample: a 200 KiB file (estimated line count
204800 / 80 = 2560) under threshold 10000 is blocked by the gate although
it is not skip-eligible and its estimated line count does not exceed the
threshold — the huge-file branch blocks unconditionally, so the claimed
biconditional fails in the huge regime. -/
theorem claim_C1_counterexample :
    gate_blocks false FileClass.code ⟨none, none⟩ true
        (some 204800) (some 2560) none 10000 = true
    ∧ should_skip_check false FileClass.code ⟨none, none⟩ true = false
    ∧ ¬((204800 / 80 : Int) > 10000) := by
  refine ⟨rfl, rfl, by decide⟩

/-- C1 amended: the gate blocks iff the request is not skip-eligible and
either the byte size exceeds 100 KiB (blocking unconditionally, with the
threshold never consulted) or the byte size lies in the 5–100 KiB
mid-range and the exact line count exceeds the threshold; files under
5 KiB are always allowed regardless of line count. -/
theorem claim_C1 (allowLargeRead : Bool) (cls : FileClass)
    (toolInput : ToolInput) (fileIsFile : Bool)
    (statRes openRes : Option Nat) (readRes : Option String)
    (threshold : Int) :
    gate_blocks allowLargeRead cls toolInput fileIsFile
        statRes openRes readRes threshold = true ↔
      should_skip_check allowLargeRead cls toolInput fileIsFile = false ∧
        (INSTANT_BLOCK_BYTES < get_file_size_bytes statRes ∨
          (INSTANT_ALLOW_BYTES ≤ get_file_size_bytes statRes ∧
            get_file_size_bytes statRes ≤ INSTANT_BLOCK_BYTES ∧
            threshold < (count_lines openRes : Int))) := by
  cases hskip : should_skip_check allowLargeRead cls toolInput fileIsFile with
  | true => simp [gate_blocks, hskip]
  | false =>
    simp only [gate_blocks, hskip, Bool.false_eq_true, if_false,
      eq_self_iff_true, true_and]
    unfold check_file_size
    dsimp only
    split_ifs with h1 h2 h3
    · exact iff_of_false (by simp)
        (by unfold INSTANT_ALLOW_BYTES INSTANT_BLOCK_BYTES at *; omega)
    · exact iff_of_true rfl
        (by unfold INSTANT_ALLOW_BYTES INSTANT_BLOCK_BYTES at *; omega)
    · exact iff_of_true rfl
        (by unfold INSTANT_ALLOW_BYTES INSTANT_BLOCK_BYTES at *; omega)
    · exact iff_of_false (by simp)
        (by unfold INSTANT_ALLOW_BYTES INSTANT_BLOCK_BYTES at *; omega)

/-- C10 counterexample: with a negative resolved threshold (reachable via
LARGE_FILE_THRESHOLD=-1), a mid-range file whose line count probe fails
(count_lines returns 0 on OSError) is blocked, because 0 > -1 — so an I/O
failure can produce a block verdict, contrary to the claim's
for-every-threshold assertion. -/
theorem claim_C10_counterexample :
    (check_file_size (some 5120) none none (-1)).1 = true
    ∧ count_lines none = 0
    ∧ ((0 : Int) > -1) := by
  refine ⟨rfl, rfl, by decide⟩

/-- C10 amended: an I/O failure inside the two-stage check cannot produce
a block verdict provided the threshold is nonnegative: if the byte-size
probe fails the size is taken as 0 and the file hits the instant-allow
branch for every threshold; if the line-count probe fails on a non-huge
file, the comparison 0 > threshold is false for every nonnegative
threshold, so exceeds is false. -/
theorem claim_C10 :
    (∀ (openRes : Option Nat) (readRes : Option String) (threshold : Int),
      (check_file_size none openRes readRes threshold).1 = false)
    ∧ (∀ (sizeBytes : Nat) (readRes : Option String) (threshold : Int),
      sizeBytes ≤ INSTANT_BLOCK_BYTES → 0 ≤ threshold →
      (check_file_size (some sizeBytes) none readRes threshold).1 = false) := by
  constructor
  · intro openRes readRes threshold
    rfl
  · intro sizeBytes readRes threshold hsize hth
    unfold check_file_size count_lines get_file_size_bytes
    dsimp only
    split_ifs with h1 h2 h3
    · rfl
    · unfold INSTANT_BLOCK_BYTES at *
      omega
    · omega
    · rfl

/-- C10 witness: the two allow verdicts at concrete failing probes. -/
theorem claim_C10_witness :
    (check_file_size none (some 3) none (-7)).1 = false
    ∧ (check_file_size (some 5120) none none 0).1 = false := by
  exact ⟨claim_C10.1 (some 3) none (-7),
    claim_C10.2 5120 none 0 (by decide) (by decide)⟩

/-- C2 counterexample: with settings.json holding largeFileThreshold 1000
and the environment variable set to 750, hook_utils'
get_large_file_threshold resolves to 1000 — the per-user config file wins
over the environment variable in that resolver, so the claimed
env-variable-wins precedence does not hold for it. -/
theorem claim_C2_counterexample :
    get_large_file_threshold (some "h") true
        (some (JsonDoc.dObj (some (JsonVal.jInt 1000)))) (some "750") =
      Except.ok 1000
    ∧ pyParseInt "750" = some 750
    ∧ (1000 : Int) ≠ 750 := by
  refine ⟨rfl, by decide, by decide⟩

/-- C2 amended: both resolvers are deterministic with a documented
precedence, but the orders differ: in large-file-guard's get_threshold a
parseable environment variable wins over any config-file value, while in
hook_utils' get_large_file_threshold a coercible settings.json value wins
over any environment variable; with no configuration source present
anywhere, both resolve to exactly 500. -/
theorem claim_C2 :
    (∀ (s : String) (n : Int) (home : Option String) (cfgIsFile : Bool)
        (cfgRead : Option String),
      pyTruthy s = true → pyParseInt s = some n →
      get_threshold (some s) home cfgIsFile cfgRead = n)
    ∧ (∀ (h : String) (v : JsonVal) (n : Int) (envThreshold : Option String),
      pyTruthy h = true → pyIntOfJson v = PyIntResult.ok n →
      get_large_file_threshold (some h) true (some (JsonDoc.dObj (some v)))
        envThreshold = Except.ok n)
    ∧ get_threshold none none false none = 500
    ∧ get_large_file_threshold none false none none = Except.ok 500 := by
  refine ⟨?_, ?_, rfl, rfl⟩
  · intro s n home cfgIsFile cfgRead htruthy hparse
    unfold get_threshold
    simp [htruthy, hparse]
  · intro h v n envThreshold htruthy hcoerce
    unfold get_large_file_threshold
    simp [htruthy, hcoerce]

/-- C2 witness: the precedence conclusions at concrete conflicting
sources. -/
theorem claim_C2_witness :
    get_threshold (some "750") (some "h") true (some "1000") = 750
    ∧ get_large_file_threshold (some "h") true
        (some (JsonDoc.dObj (some (JsonVal.jInt 1000)))) (some "750") =
      Except.ok 1000 := by
  exact ⟨claim_C2.1 "750" 750 (some "h") true (some "1000")
      (by decide) (by decide),
    claim_C2.2.1 "h" (JsonVal.jInt 1000) 1000 (some "750")
      (by decide) (by decide)⟩

/-- C3 counterexample: LARGE_FILE_THRESHOLD="-5" resolves to the
non-positive threshold -5; a settings.json largeFileThreshold of null
makes get_large_file_threshold raise (TypeError from int(None) is not in
the except clause), as does a settings.json whose whole document is null
(TypeError from the membership test on a non-iterable) — so the threshold
is neither always positive nor is resolution always non-raising. -/
theorem claim_C3_counterexample :
    get_threshold (some "-5") none false none = -5
    ∧ ¬(0 < (-5 : Int))
    ∧ get_large_file_threshold (some "h") true
        (some (JsonDoc.dObj (some JsonVal.jNull))) none = Except.error ()
    ∧ get_large_file_threshold (some "h") true (some JsonDoc.dNull) none =
        Except.error () := by
  refine ⟨by decide, by decide, rfl, rfl⟩

/-- C3 amended: the resolved threshold is always an integer but not
necessarily positive; a malformed source that raises a caught exception
(malformed JSON, non-integer text, missing file) is skipped and resolution
falls through to the next level; get_threshold never raises, and
get_large_file_threshold raises exactly when a decoded settings.json
document is present and the TypeError path fires: the document is null, a
number or a boolean (membership test on a non-iterable), or an array with
the string "largeFileThreshold" among its elements or a string containing
it as a substring (string subscript), or an object whose
largeFileThreshold value coerces with TypeError (null, array or object). -/
theorem claim_C3 :
    (∀ (envThreshold : Option String) (home : Option String)
        (cfgIsFile : Bool) (cfgRead : Option String),
      (envThreshold.bind fun s =>
        if pyTruthy s then pyParseInt s else none) = none →
      get_threshold envThreshold home cfgIsFile cfgRead =
        get_threshold none home cfgIsFile cfgRead)
    ∧ (∀ (home : Option String) (cfgIsFile : Bool) (cfgRead : Option String),
      cfgRead.bind pyParseInt = none →
      get_threshold none home cfgIsFile cfgRead = 500)
    ∧ (∀ (home : Option String) (settingsIsFile : Bool)
        (settingsDoc : Option JsonDoc) (envThreshold : Option String),
      get_large_file_threshold home settingsIsFile settingsDoc envThreshold =
          Except.error () ↔
        ∃ h, home = some h ∧ pyTruthy h = true ∧ settingsIsFile = true ∧
          (settingsDoc = some JsonDoc.dNull ∨
            settingsDoc = some JsonDoc.dNum ∨
            settingsDoc = some JsonDoc.dBool ∨
            settingsDoc = some (JsonDoc.dArr true) ∨
            settingsDoc = some (JsonDoc.dStr true) ∨
            ∃ v, settingsDoc = some (JsonDoc.dObj (some v)) ∧
              pyIntOfJson v = PyIntResult.typeError)) := by
  refine ⟨?_, ?_, ?_⟩
  · intro envThreshold home cfgIsFile cfgRead henv
    unfold get_threshold
    cases envThreshold with
    | none => rfl
    | some s =>
      cases htr : pyTruthy s with
      | false => simp [htr]
      | true =>
        cases hp : pyParseInt s with
        | none => simp [htr, hp]
        | some n =>
          exfalso
          simp [htr, hp] at henv
  · intro home cfgIsFile cfgRead hcfg
    unfold get_threshold DEFAULT_THRESHOLD
    cases home with
    | none => rfl
    | some h =>
      cases cfgRead with
      | none => simp
      | some c =>
        cases hp : pyParseInt c with
        | none => simp [hp]
        | some n =>
          exfalso
          simp [hp] at hcfg
  · intro home settingsIsFile settingsDoc envThreshold
    unfold get_large_file_threshold
    cases home with
    | none => simp
    | some h =>
      cases htruthy : pyTruthy h with
      | false => simp [htruthy]
      | true =>
        cases settingsIsFile with
        | false => simp [htruthy]
        | true =>
          cases settingsDoc with
          | none => simp [htruthy]
          | some d =>
            cases d with
            | dObj key =>
              cases key with
              | none => simp [htruthy]
              | some v =>
                cases hv : pyIntOfJson v with
                | ok n => simp [htruthy, hv]
                | valueError => simp [htruthy, hv]
                | typeError =>
                  simp only [htruthy, Bool.true_and, if_true, hv]
                  exact iff_of_true (by trivial)
                    ⟨h, rfl, htruthy, by trivial,
                      Or.inr (Or.inr (Or.inr (Or.inr (Or.inr ⟨v, rfl, hv⟩))))⟩
            | dArr b =>
              cases b with
              | false => simp [htruthy]
              | true =>
                simp only [htruthy, Bool.true_and, if_true]
                exact iff_of_true (by trivial)
                  ⟨h, rfl, htruthy, by trivial,
                    Or.inr (Or.inr (Or.inr (Or.inl (by trivial))))⟩
            | dStr b =>
              cases b with
              | false => simp [htruthy]
              | true =>
                simp only [htruthy, Bool.true_and, if_true]
                exact iff_of_true (by trivial)
                  ⟨h, rfl, htruthy, by trivial,
                    Or.inr (Or.inr (Or.inr (Or.inr (Or.inl (by trivial)))))⟩
            | dNum =>
              simp only [htruthy, Bool.true_and, if_true]
              exact iff_of_true (by trivial)
                ⟨h, rfl, htruthy, by trivial, Or.inr (Or.inl (by trivial))⟩
            | dBool =>
              simp only [htruthy, Bool.true_and, if_true]
              exact iff_of_true (by trivial)
                ⟨h, rfl, htruthy, by trivial,
                  Or.inr (Or.inr (Or.inl (by trivial)))⟩
            | dNull =>
              simp only [htruthy, Bool.true_and, if_true]
              exact iff_of_true (by trivial)
                ⟨h, rfl, htruthy, by trivial, Or.inl (by trivial)⟩

/-- C3 witness: fall-through at a concrete malformed environment variable
and a concrete malformed config file. -/
theorem claim_C3_witness :
    get_threshold (some "abc") (some "h") true (some "xyz") =
        get_threshold none (some "h") true (some "xyz")
    ∧ get_threshold none (some "h") true (some "xyz") = 500 := by
  exact ⟨claim_C3.1 (some "abc") (some "h") true (some "xyz") (by decide),
    claim_C3.2.1 (some "h") true (some "xyz") (by decide)⟩

/-- The loop body of analyze_files produces a report exactly when the file
exists, is not binary, and its line count is at least the threshold. -/
theorem analyze_one_isSome_iff (threshold : Int) (f : ScanFile) :
    (∃ r, analyze_one threshold f = some r) ↔
      (f.fsExists = true ∧ f.cls ≠ FileClass.binary ∧
        threshold ≤ (count_lines f.openRes : Int)) := by
  unfold analyze_one
  dsimp only
  split_ifs with h1 h2 h3
  · have hf : f.fsExists = false := by simpa using h1
    simp [hf]
  · simp [h2]
  · have hle : ¬ threshold ≤ (count_lines f.openRes : Int) := not_le.mpr h3
    simp [hle]
  · have hf : f.fsExists = true := by simpa using h1
    have hle : threshold ≤ (count_lines f.openRes : Int) := not_lt.mp h3
    simp [hf, h2, hle]

/-- C5 counterexample: a file with exactly 500 lines under threshold 500
is reported by the scanner, although its line count does not exceed the
threshold — analyze_files skips only files with lines strictly below the
threshold, so the claimed strict comparison fails at equality. -/
theorem claim_C5_counterexample :
    analyze_files 500 [⟨"a.py", true, FileClass.code, some 500, some "xy"⟩] =
      [⟨"a.py", 500, 0, FileClass.code, "Serena"⟩]
    ∧ ¬((500 : Int) > 500) := by
  exact ⟨rfl, by decide⟩

/-- C5 amended: for every file list and threshold, the scanner reports a
file iff it exists, is not classified binary, and its exact line count is
at least (not strictly above) the threshold, and the report sequence is
ordered descending by line count. -/
theorem claim_C5 (threshold : Int) (files : List ScanFile) :
    (∀ f ∈ files,
      ((∃ r ∈ analyze_files threshold files, analyze_one threshold f = some r) ↔
        (f.fsExists = true ∧ f.cls ≠ FileClass.binary ∧
          threshold ≤ (count_lines f.openRes : Int))))
    ∧ List.Sorted (fun a b : FileReport => b.lines ≤ a.lines)
        (analyze_files threshold files) := by
  constructor
  · intro f hf
    rw [← analyze_one_isSome_iff threshold f]
    constructor
    · rintro ⟨r, -, hr⟩
      exact ⟨r, hr⟩
    · rintro ⟨r, hr⟩
      refine ⟨r, ?_, hr⟩
      unfold analyze_files
      rw [List.mem_insertionSort]
      exact List.mem_filterMap.mpr ⟨f, hf, hr⟩
  · unfold analyze_files
    haveI htot : IsTotal FileReport (fun a b => b.lines ≤ a.lines) :=
      ⟨fun a b => le_total b.lines a.lines⟩
    haveI htrans : IsTrans FileReport (fun a b => b.lines ≤ a.lines) :=
      ⟨fun a b c hab hbc => le_trans hbc hab⟩
    exact List.sorted_insertionSort _ _

/-- C5 witness: the report condition instantiated at one concrete
qualifying file. -/
theorem claim_C5_witness :
    ((∃ r ∈ analyze_files 2
        [(⟨"b.json", true, FileClass.data, some 7, none⟩ : ScanFile)],
      analyze_one 2 (⟨"b.json", true, FileClass.data, some 7, none⟩ : ScanFile) =
        some r) ↔
      ((⟨"b.json", true, FileClass.data, some 7, none⟩ : ScanFile).fsExists = true ∧
        (⟨"b.json", true, FileClass.data, some 7, none⟩ : ScanFile).cls ≠
          FileClass.binary ∧
        (2 : Int) ≤
          (count_lines
            (⟨"b.json", true, FileClass.data, some 7, none⟩ : ScanFile).openRes :
              Int))) :=
  (claim_C5 2 _).1 _ (by decide)

/-- C9: estimate_tokens computes the floor of the character count divided
by 3.5 for every input string; in particular it is 0 on the empty string
and 1000 on a 3500-character string. -/
theorem claim_C9 :
    (∀ s : String,
      (estimate_tokens s : Int) = Int.floor ((s.length : ℚ) / (7 / 2)))
    ∧ estimate_tokens "" = 0
    ∧ estimate_tokens (String.mk (List.replicate 3500 'a')) = 1000 := by
  have h3500 : estimate_tokens (String.mk (List.replicate 3500 'a')) = 1000 := by
    unfold estimate_tokens
    have hne : (String.mk (List.replicate 3500 'a')).data.isEmpty = false := by
      simp
    have hl : (String.mk (List.replicate 3500 'a')).length = 3500 := by
      show (List.replicate 3500 'a').length = 3500
      simp only [List.length_replicate]
    rw [hne, hl]
    norm_num
  refine ⟨?_, rfl, h3500⟩
  intro s
  rcases s with ⟨data⟩
  have hlen : (String.mk data).length = data.length := rfl
  have hformula : estimate_tokens (String.mk data) = 2 * data.length / 7 := by
    unfold estimate_tokens
    cases data with
    | nil => rfl
    | cons c cs => rfl
  rw [hformula, hlen]
  generalize data.length = n
  symm
  rw [Int.floor_eq_iff]
  have h1 : 7 * (2 * n / 7) ≤ 2 * n := by omega
  have h2 : 2 * n < 7 * (2 * n / 7) + 7 := by omega
  have h1q : (7 : ℚ) * ((2 * n / 7 : Nat) : ℚ) ≤ 2 * (n : ℚ) := by
    exact_mod_cast h1
  have h2q : 2 * (n : ℚ) < 7 * ((2 * n / 7 : Nat) : ℚ) + 7 := by
    exact_mod_cast h2
  constructor
  · rw [le_div_iff₀ (by norm_num : (0 : ℚ) < 7 / 2), Int.cast_natCast]
    linarith
  · rw [div_lt_iff₀ (by norm_num : (0 : ℚ) < 7 / 2), Int.cast_natCast]
    linarith

/-- The cleanup sweep keeps every marker whose stem equals the current
session id, whatever its mtime. -/
theorem cleanup_preserves_current (currentSessionId : String) (now t : Nat)
    (markers : MarkerState)
    (hmem : (currentSessionId, t) ∈ markers) :
    (currentSessionId, t) ∈
      cleanup_old_session_markers currentSessionId now markers := by
  unfold cleanup_old_session_markers
  refine List.mem_filter.mpr ⟨hmem, ?_⟩
  simp

/-- Touching a session marker puts the pair (id, now) in the directory. -/
theorem mem_touchMarker_self (sessionId : String) (now : Nat)
    (st : MarkerState) :
    (sessionId, now) ∈ touchMarker sessionId now st := by
  unfold touchMarker
  split_ifs with h
  · obtain ⟨m, hm, hkey⟩ := List.any_eq_true.mp h
    refine List.mem_map.mpr ⟨m, hm, ?_⟩
    have hk : m.1 = sessionId := by simpa using hkey
    simp [hk]
  · exact List.mem_append.mpr (Or.inr (List.mem_singleton.mpr rfl))

/-- Every entry of a touched directory either carries the touched session
id or was already present. -/
theorem mem_touchMarker_elim (sessionId : String) (now : Nat)
    (st : MarkerState) (m : String × Nat)
    (hm : m ∈ touchMarker sessionId now st) :
    m.1 = sessionId ∨ m ∈ st := by
  unfold touchMarker at hm
  split_ifs at hm with h
  · obtain ⟨m0, hm0, heq⟩ := List.mem_map.mp hm
    by_cases hk : m0.1 = sessionId
    · left
      rw [← heq]
      simp [hk]
    · right
      rw [← heq]
      simp only [hk, if_false]
      exact hm0
  · rcases List.mem_append.mp hm with h1 | h1
    · right
      exact h1
    · left
      rw [List.mem_singleton.mp h1]

/-- C7: the session tracker returns true on the first call for a fresh
session id, false on any subsequent call for the same id, and calls for
distinct ids are independent — after a call for one id, a first call for
a different fresh id still returns true. -/
theorem claim_C7 :
    (∀ (sessionId : String) (now : Nat) (st : MarkerState),
      st.any (fun m => m.1 = sessionId) = false →
      (is_first_prompt_in_session sessionId now st).1 = true)
    ∧ (∀ (sessionId : String) (now now2 : Nat) (st : MarkerState),
      (is_first_prompt_in_session sessionId now2
        (is_first_prompt_in_session sessionId now st).2).1 = false)
    ∧ (∀ (sessionId otherId : String) (now now2 : Nat) (st : MarkerState),
      otherId ≠ sessionId →
      st.any (fun m => m.1 = otherId) = false →
      (is_first_prompt_in_session otherId now2
        (is_first_prompt_in_session sessionId now st).2).1 = true) := by
  refine ⟨?_, ?_, ?_⟩
  · intro sessionId now st h
    unfold is_first_prompt_in_session
    simp [h]
  · intro sessionId now now2 st
    unfold is_first_prompt_in_session
    dsimp only
    have hmem : (sessionId, now) ∈
        cleanup_old_session_markers sessionId now
          (touchMarker sessionId now st) :=
      cleanup_preserves_current sessionId now now _
        (mem_touchMarker_self sessionId now st)
    have hany : (cleanup_old_session_markers sessionId now
        (touchMarker sessionId now st)).any
          (fun m => m.1 = sessionId) = true :=
      List.any_eq_true.mpr ⟨(sessionId, now), hmem, by simp⟩
    simp [hany]
  · intro sessionId otherId now now2 st hne hfresh
    unfold is_first_prompt_in_session
    dsimp only
    have hany : (cleanup_old_session_markers sessionId now
        (touchMarker sessionId now st)).any
          (fun m => m.1 = otherId) = false := by
      rw [List.any_eq_false]
      intro m hm
      have hmem : m ∈ touchMarker sessionId now st :=
        (List.mem_filter.mp hm).1
      rcases mem_touchMarker_elim sessionId now st m hmem with hk | hin
      · simp [hk, hne.symm]
      · have := List.any_eq_false.mp hfresh m hin
        simpa using this
    simp [hany]

/-- C7 witness: the three conclusions at concrete session ids. -/
theorem claim_C7_witness :
    (is_first_prompt_in_session "s1" 100 []).1 = true
    ∧ (is_first_prompt_in_session "s1" 200
        (is_first_prompt_in_session "s1" 100 []).2).1 = false
    ∧ (is_first_prompt_in_session "s2" 200
        (is_first_prompt_in_session "s1" 100 []).2).1 = true := by
  exact ⟨claim_C7.1 "s1" 100 [] (by decide),
    claim_C7.2.1 "s1" 100 200 [],
    claim_C7.2.2 "s1" "s2" 100 200 [] (by decide) (by decide)⟩

/-- C8: for every marker-directory state and every current session id, the
cleanup sweep keeps the current session id's marker whatever its
modification time. -/
theorem claim_C8 (currentSessionId : String) (now t : Nat)
    (markers : MarkerState) :
    (currentSessionId, t) ∈ markers →
    (currentSessionId, t) ∈
      cleanup_old_session_markers currentSessionId now markers :=
  cleanup_preserves_current currentSessionId now t markers

/-- C8 witness: an arbitrarily old marker of the current session survives
a sweep that deletes an equally old marker of another session. -/
theorem claim_C8_witness :
    ("cur", 0) ∈ cleanup_old_session_markers "cur" 10000000
      [("cur", 0), ("old", 0)] :=
  claim_C8 "cur" 10000000 0 [("cur", 0), ("old", 0)] (by decide)

end Hooks
